import Mathlib

/-!
Shallow embedding of `whispertome.py` (repository pauljones0/whisperToMe).

The cog `WhisperToMe` is modelled as a state machine.  Its mutable fields
(`language_validation_list`, `listening`, `lang_code`, `api_key`, `client`)
become the structure `CogState`; the OpenAI client object is represented by
the key it was constructed with (`clientKey`).  The `.env` config file is the
structure `DotEnv`.  Remote-service behaviour (the `models.list` endpoint) is
an oracle `RemoteEnv`; the outcomes of the fallible steps of the
voice-message path (temp-file creation, attachment save, transcription,
reply) are an oracle `VoiceEnv`.  Each Python method becomes a pure function
returning the new state together with the list of messages sent via
`ctx.send` / `message.reply` / `message.channel.send`, the remote calls made,
and (for the voice path) the trace of temp-file operations.
-/

namespace WhisperToMe

/-- One record of the static `ISO-639-1-language.json` reference file. -/
structure Language where
  code : String
  name : String
deriving DecidableEq

/-- The `.env` config file: the two keys the program reads and writes. -/
structure DotEnv where
  OPENAI_API_KEY : Option String
  ISO_639_1_LANGUAGE_CODE : Option String
deriving DecidableEq

/-- The mutable fields of the `WhisperToMe` cog.  `clientKey` is the API key
the current `OpenAI` client object was constructed with (`self.client`);
`apiKey` is the separately cached `self.api_key` field. -/
structure CogState where
  languageValidationList : List (String × String)
  listening : Bool
  langCode : String
  apiKey : String
  clientKey : String
deriving DecidableEq

/-- A call made to the remote OpenAI service. -/
inductive RemoteCall where
  | listModels (key : String)
  | transcribe (key : String) (langCode : String)
deriving DecidableEq

/-- Oracle for the remote service: for a given API key, `client.models.list()`
either raises (error message) or returns the list of model ids. -/
structure RemoteEnv where
  listModels : String → Except String (List String)

/-- Python `str.lower()` (character-wise lowercasing; agrees with
`String.toLower` but reduces structurally). -/
def lower (s : String) : String := ⟨s.data.map Char.toLower⟩

/-- Python dict key membership for the dict built by
`_load_validation_language_dict` (`lang_code in self.language_validation_list`). -/
def containsKey (d : List (String × String)) (k : String) : Bool :=
  d.any (fun p => p.1 == k)

/-- `_load_validation_language_dict`: builds the code → name dict from the
JSON records; key membership is membership of the code in the record list. -/
def loadValidationLanguageDict (languages : List Language) : List (String × String) :=
  languages.map (fun language => (language.code, language.name))

/-- `_load_env_vars`: after `load_dotenv()`, `os.getenv` with default the
empty string for the API key and default `en` for the language code. -/
def loadEnvVars (envFile : DotEnv) : String × String :=
  (envFile.OPENAI_API_KEY.getD "", envFile.ISO_639_1_LANGUAGE_CODE.getD "en")

/-- `_load_open_ai_client`: raises `ValueError` when `self.api_key` is falsy
(the empty string), otherwise constructs the client from the key. -/
def loadOpenAiClient (apiKey : String) : Except String String :=
  if apiKey.isEmpty then
    Except.error "OPENAI_API_KEY is not set in the environment variables."
  else
    Except.ok apiKey

/-- `__init__`: loads the language registry and the env vars, starts with
`listening = False`, and constructs the client — propagating the
`ValueError` raised by `_load_open_ai_client` when the key is missing. -/
def initCog (languages : List Language) (envFile : DotEnv) : Except String CogState :=
  let registry := loadValidationLanguageDict languages
  let vars := loadEnvVars envFile
  match loadOpenAiClient vars.1 with
  | Except.error e => Except.error e
  | Except.ok clientKey =>
      Except.ok ⟨registry, false, vars.2, vars.1, clientKey⟩

/-- `_validate_api_key`: returns the messages sent, the remote calls made and
the boolean result. -/
def validateApiKey (remote : RemoteEnv) (clientKey : String) :
    List String × List RemoteCall × Bool :=
  match remote.listModels clientKey with
  | Except.error e =>
      (["An error occurred while validating the API key:\n" ++ e],
       [RemoteCall.listModels clientKey], false)
  | Except.ok models =>
      if models.any (fun m => m == "whisper-1") then
        (["API key is valid..."], [RemoteCall.listModels clientKey], true)
      else
        (["API key is valid, but does not have access to the whisper-1 model.\nModify the restrictions on this key, in order to use it."],
         [RemoteCall.listModels clientKey], false)

/-- `_validate_lang_code`: dict membership test, verbatim (no lowercasing). -/
def validateLangCode (st : CogState) (langCode : String) : List String × Bool :=
  if containsKey st.languageValidationList langCode then
    ([], true)
  else
    (["Invalid language code " ++ langCode ++ " in the environment variables."], false)

/-- `_generate_error_message` (note: the source has no space before
`before`, faithfully reproduced). -/
def generateErrorMessage (entity command : String) : String :=
  entity ++ " is not set or is invalid.\nPlease use the command `" ++ command ++
    "` to set the " ++ lower entity ++ "before calling `!start` again."

/-- `_validate_env_vars`: both validations are awaited before the branches,
so the API-key validation (and its remote call) happens even when the
language code is invalid. -/
def validateEnvVars (remote : RemoteEnv) (st : CogState) :
    List String × List RemoteCall × Bool :=
  let langRes := validateLangCode st st.langCode
  let keyRes := validateApiKey remote st.clientKey
  let baseMsgs := langRes.1 ++ keyRes.1
  if !langRes.2 then
    (baseMsgs ++ [generateErrorMessage "Language code" "!set_lang <language code>"],
     keyRes.2.1, false)
  else if !keyRes.2.2 then
    (baseMsgs ++ [generateErrorMessage "API key" "!set_api_key <OpenAI api key>"],
     keyRes.2.1, false)
  else
    (baseMsgs, keyRes.2.1, true)

/-- The fields of a Discord message the handler inspects. -/
structure Message where
  authorBot : Bool
  flagsVoice : Bool
deriving DecidableEq

/-- `_should_ignore_message`. -/
def shouldIgnoreMessage (st : CogState) (message : Message) : Bool :=
  !st.listening || message.authorBot || !message.flagsVoice

/-- Operations on the staged temporary file. -/
inductive FileOp where
  | create
  | remove
deriving DecidableEq

/-- Oracle for the fallible steps of `_process_voice_message`: outcome of
`tempfile.mkstemp`, of `message.attachments[0].save`, of the transcription
call, and of `message.reply`. -/
structure VoiceEnv where
  mkstempResult : Except String Unit
  saveResult : Except String Unit
  transcribeResult : Except String String
  replyResult : Except String Unit

/-- Output of the voice-message handler: replies sent with `message.reply`,
messages sent with `message.channel.send`, remote calls made, and the trace
of temp-file operations in order. -/
structure ProcessResult where
  replies : List String
  channelSends : List String
  remoteCalls : List RemoteCall
  fileOps : List FileOp
deriving DecidableEq

/-- Whether the temp file exists after the trace of file operations. -/
def fileExistsAfter (ops : List FileOp) : Bool :=
  ops.foldl (fun _ op => match op with | FileOp.create => true | FileOp.remove => false) false

/-- `_process_voice_message`: `mkstemp`, then an inner `try` whose `finally`
runs `os.remove(path)` on every path, all inside an outer `try/except` that
reports any exception on the channel.  The transcription (a remote call with
the cog client key and language) is attempted only once the save succeeded. -/
def processVoiceMessage (st : CogState) (venv : VoiceEnv) : ProcessResult :=
  match venv.mkstempResult with
  | Except.error e =>
      ⟨[], ["Error processing voice message:\n" ++ e], [], []⟩
  | Except.ok _ =>
      match venv.saveResult with
      | Except.error e =>
          ⟨[], ["Error processing voice message:\n" ++ e], [],
           [FileOp.create, FileOp.remove]⟩
      | Except.ok _ =>
          match venv.transcribeResult with
          | Except.error e =>
              ⟨[], ["Error processing voice message:\n" ++ e],
               [RemoteCall.transcribe st.clientKey st.langCode],
               [FileOp.create, FileOp.remove]⟩
          | Except.ok text =>
              match venv.replyResult with
              | Except.error e =>
                  ⟨[], ["Error processing voice message:\n" ++ e],
                   [RemoteCall.transcribe st.clientKey st.langCode],
                   [FileOp.create, FileOp.remove]⟩
              | Except.ok _ =>
                  ⟨[text], [],
                   [RemoteCall.transcribe st.clientKey st.langCode],
                   [FileOp.create, FileOp.remove]⟩

/-- `on_message`: returns unless `_should_ignore_message` is false; never
mutates the cog state. -/
def onMessage (st : CogState) (message : Message) (venv : VoiceEnv) :
    CogState × ProcessResult :=
  if shouldIgnoreMessage st message then
    (st, ⟨[], [], [], []⟩)
  else
    (st, processVoiceMessage st venv)

/-- `_check_listening_status`. -/
def checkListeningStatus (st : CogState) (status : Bool) : List String × Bool :=
  if st.listening == status then
    (["I\x27m already " ++ (if status then "listening" else "not listening") ++
        " to messages.\nCommand ignored."], true)
  else
    ([], false)

/-- `_toggle_listening`. -/
def toggleListening (st : CogState) (status : Bool) : CogState × List String :=
  ({st with listening := status},
   [(if status then "Started" else "Stopped") ++ " listening to all messages."])

/-- The `start` command: `if not await self._validate_env_vars(ctx) or await
self._check_listening_status(ctx, True): return` — short-circuit, so the
listening-status check runs only when validation succeeded. -/
def start (remote : RemoteEnv) (st : CogState) :
    CogState × List String × List RemoteCall :=
  let envRes := validateEnvVars remote st
  if !envRes.2.2 then
    (st, envRes.1, envRes.2.1)
  else
    let chk := checkListeningStatus st true
    if chk.2 then
      (st, envRes.1 ++ chk.1, envRes.2.1)
    else
      let tog := toggleListening st true
      (tog.1, envRes.1 ++ chk.1 ++ tog.2, envRes.2.1)

/-- The `stop` command. -/
def stop (st : CogState) : CogState × List String :=
  let chk := checkListeningStatus st false
  if chk.2 then
    (st, chk.1)
  else
    let tog := toggleListening st false
    (tog.1, chk.1 ++ tog.2)

/-- The `set_lang` command: lowercases the argument, checks registry
membership, and on success persists with `set_key(".env", ...)` and updates
`self.lang_code`. -/
def setLang (st : CogState) (envFile : DotEnv) (langCode : String) :
    CogState × DotEnv × List String :=
  let lowercaseLangCode := lower langCode
  if containsKey st.languageValidationList lowercaseLangCode then
    ({st with langCode := lowercaseLangCode},
     {envFile with ISO_639_1_LANGUAGE_CODE := some lowercaseLangCode},
     ["Language set to " ++ langCode ++ ".\nUse the `!start` command to begin listening!"])
  else
    (st, envFile,
     ["Invalid language code.\nPlease provide a valid ISO-639-1 language code."])

/-- The `set_api_key` command: validates the candidate key with a client
built from it; on success persists the key and replaces `self.client` — note
that `self.api_key` is not assigned. -/
def setApiKey (remote : RemoteEnv) (st : CogState) (envFile : DotEnv) (key : String) :
    CogState × DotEnv × List String × List RemoteCall :=
  let v := validateApiKey remote key
  if v.2.2 then
    ({st with clientKey := key},
     {envFile with OPENAI_API_KEY := some key},
     v.1 ++ ["API key set.\nUse the `!start` command to begin listening!"],
     v.2.1)
  else
    (st, envFile,
     v.1 ++ ["API key not set due to errors.\nPlease try again."],
     v.2.1)

/-! Concrete fixtures used by witnesses and counterexamples. -/

/-- A one-entry language registry, as in the spec example. -/
def registryEn : List (String × String) := [("en", "English")]

/-- A remote service for which every key lists exactly the whisper-1 model. -/
def remoteWhisper : RemoteEnv := ⟨fun _ => Except.ok ["whisper-1"]⟩

/-- A remote service for which every `models.list` call raises. -/
def remoteDown : RemoteEnv := ⟨fun _ => Except.error "invalid key"⟩

/-- A remote service that lists only models other than whisper-1. -/
def remoteNoWhisper : RemoteEnv := ⟨fun _ => Except.ok ["gpt-4"]⟩

/-- An idle cog state with a valid lowercase language code. -/
def stEn : CogState := ⟨registryEn, false, "en", "oldkey", "oldkey"⟩

/-- An idle cog state whose stored language code is uppercase `EN`. -/
def stUpper : CogState := ⟨registryEn, false, "EN", "oldkey", "oldkey"⟩

/-- A config file matching `stEn`. -/
def envEn : DotEnv := ⟨some "oldkey", some "en"⟩

/-- A voice-path oracle in which every step succeeds. -/
def venvOk : VoiceEnv := ⟨Except.ok (), Except.ok (), Except.ok "hello world", Except.ok ()⟩

/-- A voice-path oracle in which the attachment save fails. -/
def venvSaveFail : VoiceEnv :=
  ⟨Except.ok (), Except.error "disk full", Except.ok "hello world", Except.ok ()⟩

/-- Whether a step outcome is a raised exception. -/
def exceptFailed {α : Type} (r : Except String α) : Bool :=
  match r with
  | Except.error _ => true
  | Except.ok _ => false

/-- Whether some step of the voice-message path raises. -/
def venvFailed (venv : VoiceEnv) : Bool :=
  exceptFailed venv.mkstempResult || exceptFailed venv.saveResult ||
    exceptFailed venv.transcribeResult || exceptFailed venv.replyResult

/-! Helper lemmas shared by the claim theorems. -/

theorem validateEnvVars_ok_iff (remote : RemoteEnv) (st : CogState) :
    (validateEnvVars remote st).2.2 = true ↔
      (validateLangCode st st.langCode).2 = true ∧
        (validateApiKey remote st.clientKey).2.2 = true := by
  unfold validateEnvVars
  rcases h1 : (validateLangCode st st.langCode).2 <;>
    rcases h2 : (validateApiKey remote st.clientKey).2.2 <;>
      simp [h1, h2]

theorem start_of_invalid (remote : RemoteEnv) (st : CogState)
    (h : (validateEnvVars remote st).2.2 = false) :
    start remote st = (st, (validateEnvVars remote st).1, (validateEnvVars remote st).2.1) := by
  unfold start
  simp [h]

theorem validateEnvVars_listening (remote : RemoteEnv) (st : CogState) (b : Bool) :
    validateEnvVars remote {st with listening := b} = validateEnvVars remote st := rfl

/-- Claim C3: for every state and every invocation of `start`, the listening
state transitions to `Listening` only if both the current language code
passes registry validation and the current API key passes the live remote
validation at the time of the call; if either check fails, the state remains
unchanged. -/
theorem start_guarded (remote : RemoteEnv) (st : CogState) :
    ((start remote st).1.listening = true →
      st.listening = true ∨
        ((validateLangCode st st.langCode).2 = true ∧
          (validateApiKey remote st.clientKey).2.2 = true))
    ∧ (((validateLangCode st st.langCode).2 = false ∨
          (validateApiKey remote st.clientKey).2.2 = false) →
        (start remote st).1 = st) := by
  rcases henv : (validateEnvVars remote st).2.2 with _ | _
  · rw [start_of_invalid remote st henv]
    exact ⟨fun h => Or.inl h, fun _ => rfl⟩
  · have hok := (validateEnvVars_ok_iff remote st).1 henv
    constructor
    · exact fun _ => Or.inr hok
    · intro hbad
      rcases hbad with hbad | hbad
      · rw [hok.1] at hbad; exact absurd hbad (by simp)
      · rw [hok.2] at hbad; exact absurd hbad (by simp)

/-- Witness for C3 at a concrete input: with the remote service down, `start`
leaves the concrete idle state unchanged. -/
theorem start_guarded_witness : (start remoteDown stEn).1 = stEn :=
  (start_guarded remoteDown stEn).2 (Or.inr (by decide))

/-- Claim C4: for every code not present in the language registry after
lowercasing, `set_lang` leaves the in-memory state and the persisted config
file unchanged and emits the invalid-code error reply. -/
theorem set_lang_invalid_unchanged (st : CogState) (envFile : DotEnv) (langCode : String)
    (h : containsKey st.languageValidationList (lower langCode) = false) :
    (setLang st envFile langCode).1 = st
    ∧ (setLang st envFile langCode).2.1 = envFile
    ∧ (setLang st envFile langCode).2.2 =
        ["Invalid language code.\nPlease provide a valid ISO-639-1 language code."] := by
  unfold setLang
  simp [h]

/-- Witness for C4: `set_lang xx` against the registry `{"en": "English"}`. -/
theorem set_lang_invalid_unchanged_witness :
    (setLang stEn envEn "xx").1 = stEn
    ∧ (setLang stEn envEn "xx").2.1 = envEn
    ∧ (setLang stEn envEn "xx").2.2 =
        ["Invalid language code.\nPlease provide a valid ISO-639-1 language code."] :=
  set_lang_invalid_unchanged stEn envEn "xx" (by decide)

/-- Claim C5: for every code present in the registry under case-insensitive
lookup, `set_lang` stores the lowercased code both in memory and in the
config file and replies confirming success. -/
theorem set_lang_valid_updates (st : CogState) (envFile : DotEnv) (langCode : String)
    (h : containsKey st.languageValidationList (lower langCode) = true) :
    (setLang st envFile langCode).1.langCode = lower langCode
    ∧ (setLang st envFile langCode).2.1.ISO_639_1_LANGUAGE_CODE = some (lower langCode)
    ∧ (setLang st envFile langCode).2.2 =
        ["Language set to " ++ langCode ++ ".\nUse the `!start` command to begin listening!"] := by
  unfold setLang
  simp [h]

/-- Witness for C5: with registry `{"en": "English"}`, `set_lang EN` makes
the active code `en` (in memory and in the config file). -/
theorem set_lang_valid_updates_witness :
    (setLang stEn envEn "EN").1.langCode = "en"
    ∧ (setLang stEn envEn "EN").2.1.ISO_639_1_LANGUAGE_CODE = some "en" := by
  have h := set_lang_valid_updates stEn envEn "EN" (by decide)
  exact ⟨by rw [h.1]; decide, by rw [h.2.1]; decide⟩

/-- Claim C6: on every execution of the voice-message processing path
(success, remote API error, attachment save error — and also temp-file
creation failure or reply failure), the staged temporary file no longer
exists after the handler returns: every `create` in the trace is followed by
a `remove`. -/
theorem temp_file_always_removed (st : CogState) (venv : VoiceEnv) :
    fileExistsAfter (processVoiceMessage st venv).fileOps = false := by
  unfold processVoiceMessage
  rcases venv with ⟨mk, sv, tr, rp⟩
  rcases mk with e1 | u1 <;> try rcases sv with e2 | u2 <;> try rcases tr with e3 | t
  all_goals try rcases rp with e4 | u4
  all_goals rfl

/-- Claim C7: a message received while not listening, or authored by a bot,
or not flagged as a voice message, produces no reply, no channel send, no
remote call, and leaves the state unchanged. -/
theorem ignored_message_no_effect (st : CogState) (message : Message) (venv : VoiceEnv)
    (h : st.listening = false ∨ message.authorBot = true ∨ message.flagsVoice = false) :
    (onMessage st message venv).1 = st
    ∧ (onMessage st message venv).2.replies = []
    ∧ (onMessage st message venv).2.channelSends = []
    ∧ (onMessage st message venv).2.remoteCalls = [] := by
  have hig : shouldIgnoreMessage st message = true := by
    unfold shouldIgnoreMessage
    rcases h with h | h | h <;> simp [h]
  unfold onMessage
  simp [hig]

/-- Witness for C7: an idle state ignores a voice message from a human. -/
theorem ignored_message_no_effect_witness :
    (onMessage stEn ⟨false, true⟩ venvOk).1 = stEn
    ∧ (onMessage stEn ⟨false, true⟩ venvOk).2.replies = []
    ∧ (onMessage stEn ⟨false, true⟩ venvOk).2.channelSends = []
    ∧ (onMessage stEn ⟨false, true⟩ venvOk).2.remoteCalls = [] :=
  ignored_message_no_effect stEn ⟨false, true⟩ venvOk (Or.inl (by decide))

/-- Claim C8: API-key validation returns false and reports the failure when
the remote list-models call raises, and returns true exactly when the call
succeeds and the returned list contains the model id `whisper-1` (so it
returns false when the list succeeds but the id is absent). -/
theorem validate_api_key_spec (remote : RemoteEnv) (key : String) :
    (∀ e, remote.listModels key = Except.error e →
      (validateApiKey remote key).2.2 = false ∧
        (validateApiKey remote key).1 =
          ["An error occurred while validating the API key:\n" ++ e])
    ∧ ((validateApiKey remote key).2.2 = true ↔
        ∃ models, remote.listModels key = Except.ok models ∧ "whisper-1" ∈ models) := by
  constructor
  · intro e he
    unfold validateApiKey
    rw [he]
    exact ⟨rfl, rfl⟩
  · unfold validateApiKey
    rcases hr : remote.listModels key with e | models
    · simp
    · dsimp only
      by_cases hany : models.any (fun m => m == "whisper-1") = true
      · rw [if_pos hany]
        simp only [List.any_eq_true, beq_iff_eq] at hany
        obtain ⟨x, hx, rfl⟩ := hany
        exact ⟨fun _ => ⟨models, rfl, hx⟩, fun _ => rfl⟩
      · rw [if_neg hany]
        constructor
        · intro hfalse
          exact absurd hfalse (by simp)
        · rintro ⟨ms, hms, hmem⟩
          injection hms with hms
          subst hms
          refine absurd ?_ hany
          simp only [List.any_eq_true, beq_iff_eq]
          exact ⟨"whisper-1", hmem, rfl⟩

/-- Witness for C8: with the remote service raising, validation fails and
the failure is reported. -/
theorem validate_api_key_spec_witness :
    (validateApiKey remoteDown "anykey").2.2 = false ∧
      (validateApiKey remoteDown "anykey").1 =
        ["An error occurred while validating the API key:\n" ++ "invalid key"] :=
  (validate_api_key_spec remoteDown "anykey").1 "invalid key" rfl

/-- Claim C9: after a first `start` call has transitioned the state to
`Listening`, a second `start` call against the same environment performs no
state change and emits the already-listening notice. -/
theorem start_twice_noop (remote : RemoteEnv) (st : CogState)
    (h0 : st.listening = false)
    (h1 : (start remote st).1.listening = true) :
    (start remote (start remote st).1).1 = (start remote st).1
    ∧ "I\x27m already listening to messages.\nCommand ignored." ∈
        (start remote (start remote st).1).2.1 := by
  rcases henv : (validateEnvVars remote st).2.2 with _ | _
  · rw [start_of_invalid remote st henv] at h1
    rw [h0] at h1
    exact absurd h1 (by simp)
  · have hs1 : (start remote st).1 = {st with listening := true} := by
      unfold start
      simp [henv, checkListeningStatus, h0, toggleListening]
    rw [hs1]
    have henv2 : (validateEnvVars remote {st with listening := true}).2.2 = true := by
      rw [validateEnvVars_listening]
      exact henv
    have hchk : checkListeningStatus {st with listening := true} true =
        (["I\x27m already listening to messages.\nCommand ignored."], true) := rfl
    constructor
    · unfold start
      simp [henv2, hchk]
    · unfold start
      simp [henv2, hchk]

/-- Witness for C9 at a concrete input: with a healthy remote service and a
valid config, the second `start` is a no-op with the notice. -/
theorem start_twice_noop_witness :
    (start remoteWhisper (start remoteWhisper stEn).1).1 = (start remoteWhisper stEn).1
    ∧ "I\x27m already listening to messages.\nCommand ignored." ∈
        (start remoteWhisper (start remoteWhisper stEn).1).2.1 :=
  start_twice_noop remoteWhisper stEn (by decide) (by decide)

theorem validateEnvVars_false_of_lang (remote : RemoteEnv) (st : CogState)
    (h : (validateLangCode st st.langCode).2 = false) :
    (validateEnvVars remote st).2.2 = false := by
  unfold validateEnvVars
  simp [h]

/-- Claim C10: the language validation run by `start` compares the stored
code against the registry verbatim, with no lowercasing: whenever the stored
code is absent from the registry but its lowercasing is present, the
validation run by `start` fails (and `start` leaves the state unchanged, for any remote
service) even though `set_lang` accepts the same code case-insensitively. -/
theorem start_lang_case_sensitive (remote : RemoteEnv) (st : CogState) (envFile : DotEnv)
    (hmiss : containsKey st.languageValidationList st.langCode = false)
    (hhit : containsKey st.languageValidationList (lower st.langCode) = true) :
    (validateLangCode st st.langCode).2 = false
    ∧ (start remote st).1 = st
    ∧ (setLang st envFile st.langCode).1.langCode = lower st.langCode := by
  have hv : (validateLangCode st st.langCode).2 = false := by
    unfold validateLangCode
    simp [hmiss]
  refine ⟨hv, ?_, ?_⟩
  · rw [start_of_invalid remote st (validateEnvVars_false_of_lang remote st hv)]
  · unfold setLang
    simp [hhit]

/-- Witness for C10: stored code `EN`, registry key `en`, the API key fully
valid — `start` still refuses while `set_lang EN` would be accepted. -/
theorem start_lang_case_sensitive_witness :
    (validateLangCode stUpper stUpper.langCode).2 = false
    ∧ (start remoteWhisper stUpper).1 = stUpper
    ∧ (setLang stUpper envEn stUpper.langCode).1.langCode = lower stUpper.langCode :=
  start_lang_case_sensitive remoteWhisper stUpper envEn (by decide) (by decide)

/-- Counterexample to claim C1 as stated: `set_api_key` with a valid key
persists the new key, but the in-memory cached `self.api_key` field keeps
its previous value — it is not re-synced. -/
theorem set_api_key_cache_not_resynced :
    (setApiKey remoteWhisper stEn envEn "newkey").2.1.OPENAI_API_KEY = some "newkey"
    ∧ ¬ (setApiKey remoteWhisper stEn envEn "newkey").1.apiKey = "newkey" := by
  decide

/-- Claim C1 amended: after `set_lang` with a valid code the persisted value
equals the in-memory `lang_code`; after `set_api_key` with a valid key the
persisted value equals the key of the in-memory client object, but the
cached `api_key` field is left holding its previous value. -/
theorem config_cache_sync (remote : RemoteEnv) (st : CogState) (envFile : DotEnv)
    (code key : String)
    (hlang : containsKey st.languageValidationList (lower code) = true)
    (hkey : (validateApiKey remote key).2.2 = true) :
    (setLang st envFile code).2.1.ISO_639_1_LANGUAGE_CODE =
        some (setLang st envFile code).1.langCode
    ∧ (setApiKey remote st envFile key).2.1.OPENAI_API_KEY =
        some (setApiKey remote st envFile key).1.clientKey
    ∧ (setApiKey remote st envFile key).1.apiKey = st.apiKey := by
  unfold setLang setApiKey
  simp [hlang, hkey]

/-- Witness for the amended C1 at concrete inputs. -/
theorem config_cache_sync_witness :
    (setLang stEn envEn "EN").2.1.ISO_639_1_LANGUAGE_CODE =
        some (setLang stEn envEn "EN").1.langCode
    ∧ (setApiKey remoteWhisper stEn envEn "newkey").2.1.OPENAI_API_KEY =
        some (setApiKey remoteWhisper stEn envEn "newkey").1.clientKey
    ∧ (setApiKey remoteWhisper stEn envEn "newkey").1.apiKey = stEn.apiKey :=
  config_cache_sync remoteWhisper stEn envEn "EN" "newkey" (by decide) (by decide)

/-- Counterexample to claim C2 as stated: with no API key configured,
initialization itself raises a `ValueError` that propagates out of the
constructor instead of being translated into a reply. -/
theorem init_error_propagates :
    initCog [⟨"en", "English"⟩] ⟨none, none⟩ =
      Except.error "OPENAI_API_KEY is not set in the environment variables." := rfl

/-- Claim C2 amended: every error raised at the command/event boundary is
recovered locally and translated into a human-readable reply — a remote
failure during the key validation run by `start` is reported and leaves
the state unchanged, a remote failure during `set_api_key` is reported and
leaves state and config unchanged, and every failure on the voice-message
path is reported on the channel.  Errors during startup/initialization are
excluded: a missing API key makes `__init__` raise. -/
theorem boundary_errors_recovered (remote : RemoteEnv) (st : CogState)
    (envFile : DotEnv) (key : String) (venv : VoiceEnv) :
    (venvFailed venv = true →
      ∃ e, (processVoiceMessage st venv).channelSends =
          ["Error processing voice message:\n" ++ e])
    ∧ (∀ e, remote.listModels st.clientKey = Except.error e →
        "An error occurred while validating the API key:\n" ++ e ∈ (start remote st).2.1
        ∧ (start remote st).1 = st)
    ∧ (∀ e, remote.listModels key = Except.error e →
        "An error occurred while validating the API key:\n" ++ e ∈
            (setApiKey remote st envFile key).2.2.1
        ∧ (setApiKey remote st envFile key).1 = st
        ∧ (setApiKey remote st envFile key).2.1 = envFile) := by
  refine ⟨?_, ?_, ?_⟩
  · intro h
    unfold processVoiceMessage
    rcases venv with ⟨mk, sv, tr, rp⟩
    rcases mk with e1 | u1
    · exact ⟨e1, rfl⟩
    · rcases sv with e2 | u2
      · exact ⟨e2, rfl⟩
      · rcases tr with e3 | t
        · exact ⟨e3, rfl⟩
        · rcases rp with e4 | u4
          · exact ⟨e4, rfl⟩
          · simp [venvFailed, exceptFailed] at h
  · intro e he
    have hkey : validateApiKey remote st.clientKey =
        (["An error occurred while validating the API key:\n" ++ e],
         [RemoteCall.listModels st.clientKey], false) := by
      unfold validateApiKey
      rw [he]
    have henv : (validateEnvVars remote st).2.2 = false := by
      unfold validateEnvVars
      rcases h1 : (validateLangCode st st.langCode).2 <;> simp [h1, hkey]
    have hmem : "An error occurred while validating the API key:\n" ++ e ∈
        (validateEnvVars remote st).1 := by
      unfold validateEnvVars
      rcases h1 : (validateLangCode st st.langCode).2 <;> simp [h1, hkey]
    rw [start_of_invalid remote st henv]
    exact ⟨hmem, rfl⟩
  · intro e he
    have hkey : validateApiKey remote key =
        (["An error occurred while validating the API key:\n" ++ e],
         [RemoteCall.listModels key], false) := by
      unfold validateApiKey
      rw [he]
    unfold setApiKey
    rw [hkey]
    exact ⟨by simp, rfl, rfl⟩

/-- Witness for the amended C2: a failed attachment save is reported on the
channel, and a remote failure during the validation run by `start` is
reported while the state stays unchanged. -/
theorem boundary_errors_recovered_witness :
    (∃ e, (processVoiceMessage stEn venvSaveFail).channelSends =
        ["Error processing voice message:\n" ++ e])
    ∧ "An error occurred while validating the API key:\n" ++ "invalid key" ∈
        (start remoteDown stEn).2.1
    ∧ (start remoteDown stEn).1 = stEn :=
  ⟨(boundary_errors_recovered remoteDown stEn envEn "anykey" venvSaveFail).1 (by decide),
   (boundary_errors_recovered remoteDown stEn envEn "anykey" venvSaveFail).2.1 "invalid key" rfl⟩

end WhisperToMe
